import Mathlib

/-!
Shallow embedding of two utility modules of the repository:

* `common/djangoapps/util/db.py` — the `CommitOnSuccessManager` transaction
  context manager / decorator, `commit_on_success`, and `generate_int_id`.
* `openedx/core/lib/api/parsers.py` — `TypedFileUploadParser.parse` and
  `MergePatchParser`.

The database connection is modelled as an explicit record threaded through the
manager's `enter` and `exit` methods; whether the driver-level `commit` and
`rollback` calls raise is supplied by an environment record `DbEnv`, since
those are external driver behaviours.  Exceptions are modelled with `Except`.
-/

namespace UtilDb

/-- Python exceptions that can surface from the code under study. -/
inductive PyExc where
  | transactionManagementError : PyExc
  | databaseError : PyExc
  | attributeError : PyExc
  | userExc (code : Nat) : PyExc
deriving DecidableEq, Repr

/-- Environment describing whether the driver-level commit / rollback calls
raise when attempted during a single `exit`. `commitFails` models
`connection.commit()` raising `DatabaseError`; `rollbackFails` models
`connection.rollback()` raising `Error`. -/
structure DbEnv where
  commitFails : Bool
  rollbackFails : Bool
deriving DecidableEq, Repr

/-- The state of a database connection, as far as the code under study reads
and writes it.  `commit_on_success_block_level` is `none` when the Python
attribute has never been set (`getattr(connection, ..., 0)` then yields 0).
`commitAttempts` / `rollbackAttempts` count calls to `connection.commit()` /
`connection.rollback()`; `executedSql` logs statements run through a cursor;
`startedUnderAutocommit` counts `_start_transaction_under_autocommit` calls. -/
structure Connection where
  in_atomic_block : Bool
  commit_on_success_block_level : Option Int
  vendor : String
  autocommits_when_autocommit_is_off : Bool
  autocommit : Bool
  closed : Bool
  commitAttempts : Nat
  rollbackAttempts : Nat
  executedSql : List String
  startedUnderAutocommit : Nat
deriving DecidableEq, Repr

/-- The manager object: `CommitOnSuccessManager(using, read_committed)`, with
the class attribute `ENABLED`. -/
structure CommitOnSuccessManager where
  ENABLED : Bool
  using_ : Option String
  read_committed : Bool
deriving DecidableEq, Repr

/-- The SQL statement issued when a READ COMMITTED isolation level is
requested on MySQL. -/
def READ_COMMITTED_SQL : String := "SET TRANSACTION ISOLATION LEVEL READ COMMITTED"

/-- `CommitOnSuccessManager.__enter__`.  Returns the updated connection, or
the exception it raises.  When it raises, the connection is unchanged (the
raise happens before any mutation). -/
def CommitOnSuccessManager.enter (m : CommitOnSuccessManager) (conn : Connection) :
    Except PyExc Connection :=
  if !m.ENABLED then .ok conn
  else if conn.in_atomic_block then .error .transactionManagementError
  else if conn.commit_on_success_block_level.getD 0 == 0 then
    let c1 := { conn with commit_on_success_block_level := some 1 }
    let c2 :=
      if m.read_committed && conn.vendor == "mysql" then
        { c1 with executedSql := c1.executedSql ++ [READ_COMMITTED_SQL] }
      else c1
    if conn.autocommits_when_autocommit_is_off then
      .ok { c2 with startedUnderAutocommit := c2.startedUnderAutocommit + 1,
                    autocommit := false }
    else
      .ok { c2 with autocommit := false }
  else
    let newLevel := some (conn.commit_on_success_block_level.getD 0 + 1)
    .ok { conn with commit_on_success_block_level := newLevel }

/-- `CommitOnSuccessManager.__exit__`.  `excOccurred` is whether the body of
the `with` statement raised (`exc_type is not None`).  Returns the exception
the exit itself raises (if any) together with the final connection state.
The `finally` block always runs; if the attribute
`commit_on_success_block_level` is absent, the in-place decrement raises
`AttributeError`, which replaces any pending exception. -/
def CommitOnSuccessManager.exitFull (m : CommitOnSuccessManager) (env : DbEnv)
    (excOccurred : Bool) (conn : Connection) : Except PyExc Unit × Connection :=
  if !m.ENABLED then (.ok (), conn)
  else
    let tryStep : Except PyExc Unit × Connection :=
      if !excOccurred then
        let ca := { conn with commitAttempts := conn.commitAttempts + 1 }
        if env.commitFails then
          let ra := { ca with rollbackAttempts := ca.rollbackAttempts + 1 }
          if env.rollbackFails then
            (.error .databaseError, { ra with closed := true })
          else
            (.error .databaseError, ra)
        else (.ok (), ca)
      else
        let ra := { conn with rollbackAttempts := conn.rollbackAttempts + 1 }
        if env.rollbackFails then (.ok (), { ra with closed := true })
        else (.ok (), ra)
    let c1 := tryStep.2
    match c1.commit_on_success_block_level with
    | none => (.error .attributeError, c1)
    | some lvl =>
      let c2 := { c1 with commit_on_success_block_level := some (lvl - 1) }
      if lvl - 1 == 0 then
        (tryStep.1, { c2 with autocommit := true })
      else (tryStep.1, c2)

/-- Python `with self: body` semantics built from `enter` and `exitFull`:
if `enter` raises, that exception propagates and the body never runs; if the
body raises, `exitFull` runs with `excOccurred = true` and (returning a falsy
value) lets the body's exception propagate unless the exit itself raises; if
the body succeeds, an exception from `exitFull` propagates. -/
def pyWith {β : Type} (m : CommitOnSuccessManager) (env : DbEnv)
    (body : Connection → Except PyExc β × Connection) (conn : Connection) :
    Except PyExc β × Connection :=
  match m.enter conn with
  | .error e => (.error e, conn)
  | .ok c1 =>
    match body c1 with
    | (.ok v, c2) =>
      match m.exitFull env false c2 with
      | (.ok _, c3) => (.ok v, c3)
      | (.error e, c3) => (.error e, c3)
    | (.error e, c2) =>
      match m.exitFull env true c2 with
      | (.ok _, c3) => (.error e, c3)
      | (.error e2, c3) => (.error e2, c3)

/-- `CommitOnSuccessManager.__call__`: wraps `func` so that each call runs
inside `with self:`. -/
def CommitOnSuccessManager.callDecorator {α β : Type} (m : CommitOnSuccessManager)
    (func : α → Connection → Except PyExc β × Connection) :
    α → DbEnv → Connection → Except PyExc β × Connection :=
  fun args env conn => pyWith m env (func args) conn

/-- Django's `DEFAULT_DB_ALIAS`. -/
def DEFAULT_DB_ALIAS : String := "default"

/-- `commit_on_success(using, read_committed)` on the non-callable branch:
builds the context manager / decorator object. -/
def commit_on_success (using_ : Option String) (read_committed : Bool) :
    CommitOnSuccessManager :=
  { ENABLED := true, using_ := using_, read_committed := read_committed }

/-- `commit_on_success(func)` on the callable branch: decorates `func`
directly, using the default database alias (and the default
`read_committed = False`). -/
def commit_on_success_on_callable {α β : Type}
    (func : α → Connection → Except PyExc β × Connection) :
    α → DbEnv → Connection → Except PyExc β × Connection :=
  (CommitOnSuccessManager.mk true (some DEFAULT_DB_ALIAS) false).callDecorator func

/-- One use of the manager, viewed from the connection: an `__enter__` or an
`__exit__` (the latter carrying whether the body raised and how the driver
behaves during this exit). -/
inductive TxOp where
  | enterOp : TxOp
  | exitOp (excOccurred : Bool) (env : DbEnv) : TxOp

/-- The connection state after `__enter__` (unchanged when `__enter__`
raises, since the raise precedes any mutation). -/
def enterState (m : CommitOnSuccessManager) (conn : Connection) : Connection :=
  match m.enter conn with
  | .ok c => c
  | .error _ => conn

/-- The connection state after `__exit__` (the `finally` block has run even
when the exit raises). -/
def exitState (m : CommitOnSuccessManager) (env : DbEnv) (excOccurred : Bool)
    (conn : Connection) : Connection :=
  (m.exitFull env excOccurred conn).2

/-- Apply one manager operation to the connection. -/
def applyOp (m : CommitOnSuccessManager) : TxOp → Connection → Connection
  | .enterOp, c => enterState m c
  | .exitOp e env, c => exitState m env e c

/-- Apply a sequence of manager operations left to right. -/
def runOps (m : CommitOnSuccessManager) : List TxOp → Connection → Connection
  | [], c => c
  | op :: rest, c => runOps m rest (applyOp m op c)

/-- Balanced (well-nested) sequences of enters and exits, as produced by
nested `with` statements: the empty sequence, an enter wrapped with its
matching exit around a balanced body, and concatenation. -/
inductive Balanced : List TxOp → Prop where
  | nil : Balanced []
  | wrap (e : Bool) (env : DbEnv) (l : List TxOp) :
      Balanced l → Balanced (TxOp.enterOp :: l ++ [TxOp.exitOp e env])
  | append (l1 l2 : List TxOp) : Balanced l1 → Balanced l2 → Balanced (l1 ++ l2)

/-- `MYSQL_MAX_INT = (2 ** 31) - 1`. -/
def MYSQL_MAX_INT : Int := 2 ^ 31 - 1

/-- Retry loop of `generate_int_id`: draws `draws idx`, `draws (idx+1)`, …
until a value outside `used` comes up, spending one unit of fuel per draw.
`none` means the fuel was exhausted with every draw in `used` (the Python
loop would still be running). -/
def genIntIdAux (draws : Nat → Int) (used : List Int) : Nat → Nat → Option Int
  | 0, _ => none
  | fuel + 1, idx =>
    let cid := draws idx
    if used.contains cid then genIntIdAux draws used fuel (idx + 1) else some cid

/-- `generate_int_id(minimum, maximum, used_ids)`.  The stream `draws` stands
for the successive results of `random.randint(minimum, maximum)`; the randint
contract (each draw lies in `[minimum, maximum]`) is a hypothesis of the
theorems.  `used_ids = none` models the `None` default, replaced by `[]`. -/
def generate_int_id (draws : Nat → Int) (fuel : Nat)
    (minimum maximum : Int) (used_ids : Option (List Int)) : Option Int :=
  let _ := minimum
  let _ := maximum
  genIntIdAux draws (used_ids.getD []) fuel 0

/-- A concrete connection used to instantiate theorems: outside any atomic
block, one manager level already open, MySQL vendor. -/
def sampleConn : Connection :=
  { in_atomic_block := false, commit_on_success_block_level := some 1,
    vendor := "mysql", autocommits_when_autocommit_is_off := false,
    autocommit := false, closed := false, commitAttempts := 0,
    rollbackAttempts := 0, executedSql := [], startedUnderAutocommit := 0 }

/-- A concrete fresh connection: outside any atomic block, the
`commit_on_success_block_level` attribute never set. -/
def freshConn : Connection :=
  { in_atomic_block := false, commit_on_success_block_level := none,
    vendor := "mysql", autocommits_when_autocommit_is_off := false,
    autocommit := true, closed := false, commitAttempts := 0,
    rollbackAttempts := 0, executedSql := [], startedUnderAutocommit := 0 }

/-- A concrete enabled manager requesting READ COMMITTED on the default
alias. -/
def sampleMgr : CommitOnSuccessManager :=
  { ENABLED := true, using_ := some DEFAULT_DB_ALIAS, read_committed := true }

end UtilDb

namespace ApiParsers

/-- Exceptions raised by `TypedFileUploadParser.parse`: the two DRF
exceptions the code raises explicitly, and Python's `IndexError` from
`filename.rsplit('.', 1)[1]` on a dot-free filename. -/
inductive DRFError where
  | unsupportedMediaType (mediaType : String) : DRFError
  | parseError (detail : String) : DRFError
  | indexError : DRFError
deriving DecidableEq, Repr

/-- The `DataAndFiles` result of `FileUploadParser.parse`: data dict left
empty, body of the request placed in `files['file']`. -/
structure DataAndFiles where
  data : List (String × String)
  file : String
deriving DecidableEq, Repr

/-- `TypedFileUploadParser.file_extensions`, verbatim from the source. -/
def file_extensions : List (String × List String) :=
  [("image/gif", [".gif"]),
   ("image/jpeg", [".jpeg", ".jpg"]),
   ("image/pjpeg", [".jpeg", ".jpg"]),
   ("image/png", [".png"]),
   ("image/svg", [".svg"])]

/-- Lookup in the `file_extensions` table. -/
def lookupExt (mt : String) : Option (List String) :=
  (file_extensions.find? (fun p => p.1 == mt)).map Prod.snd

/-- Python `s.lower()` for the ASCII strings at play: lowercase each
character. -/
def lowerAscii (s : String) : String :=
  String.mk (s.data.map Char.toLower)

/-- Python `s.rsplit('.', 1)`: split at the last `'.'` only, `[s]` when there
is no `'.'`. -/
def rsplitDot1 (s : String) : List String :=
  let r := s.data.reverse
  let afterRev := r.takeWhile (fun c => c ≠ '.')
  match r.dropWhile (fun c => c ≠ '.') with
  | [] => [s]
  | _ :: beforeRev => [String.mk beforeRev.reverse, String.mk afterRev.reverse]

/-- The lowercased extension the code computes:
`('.' + filename.rsplit('.', 1)[1]).lower()`, `none` when the index raises. -/
def extOf (filename : String) : Option String :=
  ((rsplitDot1 filename)[1]?).map (fun t => lowerAscii ("." ++ t))

/-- The straight-line tail of `TypedFileUploadParser.parse` after the
whitelist check (source lines 67–73): extension validation against
`file_extensions`, then the `super().parse(...)` call of `FileUploadParser`,
modelled as succeeding with the body in `files['file']`. -/
def parseAfterWhitelist (stream media_type filename : String) :
    Except DRFError DataAndFiles :=
  match lookupExt media_type with
  | some exts =>
    match (rsplitDot1 filename)[1]? with
    | none => .error .indexError
    | some tl =>
      let ext := "." ++ tl
      if !exts.contains (lowerAscii ext) then
        .error (.parseError ("Filename does not match requested content-type. Filename: "
          ++ filename ++ ", Content-type: " ++ media_type))
      else .ok { data := [], file := stream }
  | none => .ok { data := [], file := stream }

/-- `TypedFileUploadParser.parse`.  `upload_media_types` is
`getattr(parser_context['view'], 'upload_media_types', None)`; `filename` is
the result of `self.get_filename(...)` (extracted from the content-disposition
header by the DRF base class). -/
def TypedFileUploadParser.parse (stream : String) (media_type : String)
    (upload_media_types : Option (List String)) (filename : String) :
    Except DRFError DataAndFiles :=
  if (match upload_media_types with
      | some ts => !ts.contains media_type
      | none => false) then
    .error (.unsupportedMediaType media_type)
  else
    parseAfterWhitelist stream media_type filename

/-- Is the outcome a `ParseError`? -/
def isParseError {γ : Type} : Except DRFError γ → Bool
  | .error (.parseError _) => true
  | _ => false

/-- Is the outcome an `UnsupportedMediaType`? -/
def isUnsupportedMediaType {γ : Type} : Except DRFError γ → Bool
  | .error (.unsupportedMediaType _) => true
  | _ => false

/-- `JSONParser.media_type` in DRF. -/
def JSONParser_media_type : String := "application/json"

/-- `MergePatchParser.media_type`. -/
def MergePatchParser_media_type : String := "application/merge-patch+json"

/-- `MergePatchParser.parse`: the class body declares no `parse` method, so
by inheritance it is exactly `JSONParser.parse` (here a parameter, since the
DRF base class is outside this repository). -/
def MergePatchParser.parse {σ ρ : Type} (jsonParserParse : σ → ρ) : σ → ρ :=
  jsonParserParse

end ApiParsers

/-!
Helper lemmas about the transaction manager's state transitions.
-/

namespace UtilDb

/-- No branch of `__enter__` or `__exit__` touches `in_atomic_block`. -/
theorem enterState_in_atomic_block (m : CommitOnSuccessManager) (c : Connection) :
    (enterState m c).in_atomic_block = c.in_atomic_block := by
  unfold enterState CommitOnSuccessManager.enter
  cases hE : m.ENABLED <;>
    cases hA : c.in_atomic_block <;>
      cases h0 : (c.commit_on_success_block_level.getD 0 == 0) <;>
        cases hrw : (m.read_committed && c.vendor == "mysql") <;>
          cases hac : c.autocommits_when_autocommit_is_off <;>
            simp [hE, hA, h0, hrw, hac]

/-- `__exit__` never touches `in_atomic_block`. -/
theorem exitState_in_atomic_block (m : CommitOnSuccessManager) (env : DbEnv)
    (e : Bool) (c : Connection) :
    (exitState m env e c).in_atomic_block = c.in_atomic_block := by
  unfold exitState CommitOnSuccessManager.exitFull
  cases hE : m.ENABLED <;> cases e <;> cases hc : env.commitFails <;>
    cases hr : env.rollbackFails <;>
      cases hl : c.commit_on_success_block_level <;>
        simp [hE, hc, hr, hl] <;> (try (split <;> simp))

/-- An enabled `__enter__` outside an atomic block raises the nesting counter
by one (from 0 to 1 at an outermost entry, by increment when nested). -/
theorem enterState_level (m : CommitOnSuccessManager) (c : Connection) (v : Int)
    (hE : m.ENABLED = true) (hA : c.in_atomic_block = false)
    (hl : c.commit_on_success_block_level = some v) :
    (enterState m c).commit_on_success_block_level = some (v + 1) := by
  unfold enterState CommitOnSuccessManager.enter
  rw [hE, hA]
  by_cases h0 : v = 0
  · subst h0
    cases hrw : (m.read_committed && c.vendor == "mysql") <;>
      cases hac : c.autocommits_when_autocommit_is_off <;>
        simp [hl, hrw, hac]
  · simp [hl, h0]

/-- An enabled `__exit__` lowers the nesting counter by exactly one, whatever
the driver does and whether the body raised. -/
theorem exitState_level (m : CommitOnSuccessManager) (env : DbEnv) (e : Bool)
    (c : Connection) (v : Int)
    (hE : m.ENABLED = true) (hl : c.commit_on_success_block_level = some v) :
    (exitState m env e c).commit_on_success_block_level = some (v - 1) := by
  unfold exitState CommitOnSuccessManager.exitFull
  rw [hE]
  cases e <;> cases hc : env.commitFails <;> cases hr : env.rollbackFails <;>
    simp [hl] <;> split <;> simp

/-- An enabled `__exit__` re-enables autocommit exactly when the counter
reaches 0, and otherwise leaves autocommit unchanged. -/
theorem exitState_autocommit (m : CommitOnSuccessManager) (env : DbEnv) (e : Bool)
    (c : Connection) (v : Int)
    (hE : m.ENABLED = true) (hl : c.commit_on_success_block_level = some v) :
    (exitState m env e c).autocommit = (if v - 1 = 0 then true else c.autocommit) := by
  unfold exitState CommitOnSuccessManager.exitFull
  rw [hE]
  cases e <;> cases hc : env.commitFails <;> cases hr : env.rollbackFails <;>
    simp [hl] <;> split <;> simp_all

/-- Running a concatenation of operation sequences composes. -/
theorem runOps_append (m : CommitOnSuccessManager) (l1 l2 : List TxOp) (c : Connection) :
    runOps m (l1 ++ l2) c = runOps m l2 (runOps m l1 c) := by
  induction l1 generalizing c with
  | nil => rfl
  | cons op rest ih => simp [runOps, ih]

/-- A balanced sequence of enters and exits leaves the nesting counter at its
initial value (and never touches `in_atomic_block`). -/
theorem runOps_balanced_level (m : CommitOnSuccessManager) {l : List TxOp}
    (hb : Balanced l) :
    ∀ c v, m.ENABLED = true → c.in_atomic_block = false →
      c.commit_on_success_block_level = some v →
      (runOps m l c).commit_on_success_block_level = some v
      ∧ (runOps m l c).in_atomic_block = false := by
  induction hb with
  | nil => intro c v hE hA hl; exact ⟨hl, hA⟩
  | wrap e env l hb ih =>
    intro c v hE hA hl
    have hrw : runOps m (TxOp.enterOp :: l ++ [TxOp.exitOp e env]) c
        = runOps m [TxOp.exitOp e env] (runOps m l (enterState m c)) := by
      show runOps m (l ++ [TxOp.exitOp e env]) (applyOp m TxOp.enterOp c)
          = runOps m [TxOp.exitOp e env] (runOps m l (enterState m c))
      rw [runOps_append]
      rfl
    rw [hrw]
    have hA1 : (enterState m c).in_atomic_block = false := by
      rw [enterState_in_atomic_block]; exact hA
    have hl1 := enterState_level m c v hE hA hl
    obtain ⟨hl2, hA2⟩ := ih (enterState m c) (v + 1) hE hA1 hl1
    constructor
    · show (exitState m env e (runOps m l (enterState m c))).commit_on_success_block_level = some v
      rw [exitState_level m env e _ (v + 1) hE hl2]
      simp
    · show (exitState m env e (runOps m l (enterState m c))).in_atomic_block = false
      rw [exitState_in_atomic_block]
      exact hA2
  | append l1 l2 h1 h2 ih1 ih2 =>
    intro c v hE hA hl
    rw [runOps_append]
    obtain ⟨hl1, hA1⟩ := ih1 c v hE hA hl
    exact ih2 (runOps m l1 c) v hE hA1 hl1

end UtilDb

/-!
Helper lemmas about the upload parser.
-/

namespace ApiParsers

/-- The code after the whitelist check can only produce an `IndexError`, a
`ParseError`, or a successful `DataAndFiles` — never `UnsupportedMediaType`. -/
theorem parseAfterWhitelist_not_umt (stream mt filename : String) :
    isUnsupportedMediaType (parseAfterWhitelist stream mt filename) = false := by
  unfold parseAfterWhitelist
  rcases hlk : lookupExt mt with _ | exts
  · rfl
  · rcases hrs : (rsplitDot1 filename)[1]? with _ | tl
    · rfl
    · by_cases hext : exts.contains (lowerAscii ("." ++ tl))
      · have hmem : lowerAscii ("." ++ tl) ∈ exts := by simpa using hext
        simp [isUnsupportedMediaType, hmem]
      · have hmem : lowerAscii ("." ++ tl) ∉ exts := by simpa using hext
        simp [isUnsupportedMediaType, hmem]

/-- When the whitelist check passes (no whitelist, or the media type is
whitelisted), `parse` reduces to the code after the check. -/
theorem parse_pass_eq (stream mt filename : String) (umt : Option (List String))
    (hw : ∀ ts, umt = some ts → mt ∈ ts) :
    TypedFileUploadParser.parse stream mt umt filename
      = parseAfterWhitelist stream mt filename := by
  unfold TypedFileUploadParser.parse
  cases umt with
  | none => rfl
  | some ts =>
    have hcond : ¬((match (some ts : Option (List String)) with
        | some ts => !ts.contains mt
        | none => false) = true) := by simpa using hw ts rfl
    rw [if_neg hcond]

/-- On a string with no `'.'`, Python `rsplit('.', 1)` returns the singleton
list. -/
theorem rsplitDot1_no_dot (s : String) (h : '.' ∉ s.data) : rsplitDot1 s = [s] := by
  have hd : List.dropWhile (fun c => decide (c ≠ '.')) s.data.reverse = [] := by
    rw [List.dropWhile_eq_nil_iff]
    intro x hx
    simp only [List.mem_reverse] at hx
    simp only [decide_eq_true_eq]
    intro he
    exact h (he ▸ hx)
  simp only [rsplitDot1]
  rw [hd]

end ApiParsers

/-!
Claim theorems.
-/

namespace UtilDb

/-- Claim C1, counterexample to the claim as stated: with ENABLED true, no
body exception, a commit that raises `DatabaseError` and a rollback that
succeeds, the exit rolls back and propagates the commit error but does NOT
close the connection — the code closes only when the rollback itself also
raises. -/
theorem C1_counterexample :
    (sampleMgr.exitFull ⟨true, false⟩ false sampleConn).1 = .error PyExc.databaseError
    ∧ (sampleMgr.exitFull ⟨true, false⟩ false sampleConn).2.commitAttempts = 1
    ∧ (sampleMgr.exitFull ⟨true, false⟩ false sampleConn).2.rollbackAttempts = 1
    ∧ (sampleMgr.exitFull ⟨true, false⟩ false sampleConn).2.closed = false := by
  refine ⟨rfl, rfl, rfl, rfl⟩

/-- Claim C1 (amended): for every exit of `CommitOnSuccessManager` with
ENABLED true (and the nesting attribute present): if no exception occurred in
the body, `connection.commit()` is attempted; if that commit raises a
`DatabaseError`, the connection is rolled back (and closed only if that
rollback itself raises an `Error`) and the commit error propagates to the
caller; if an exception occurred in the body, the connection is rolled back
instead of committed. -/
theorem C1_exit_behaviour (m : CommitOnSuccessManager) (env : DbEnv)
    (conn : Connection) (v : Int)
    (hE : m.ENABLED = true) (hlvl : conn.commit_on_success_block_level = some v) :
    ((m.exitFull env false conn).2.commitAttempts = conn.commitAttempts + 1)
    ∧ (env.commitFails = true →
        (m.exitFull env false conn).1 = .error PyExc.databaseError
        ∧ (m.exitFull env false conn).2.rollbackAttempts = conn.rollbackAttempts + 1
        ∧ (m.exitFull env false conn).2.closed = (conn.closed || env.rollbackFails))
    ∧ (env.commitFails = false → (m.exitFull env false conn).1 = .ok ())
    ∧ ((m.exitFull env true conn).2.commitAttempts = conn.commitAttempts
        ∧ (m.exitFull env true conn).2.rollbackAttempts = conn.rollbackAttempts + 1) := by
  unfold CommitOnSuccessManager.exitFull
  rw [hE]
  cases hc : env.commitFails <;> cases hr : env.rollbackFails <;>
    simp [hlvl] <;> split <;> simp

theorem C1_exit_behaviour_witness :
    sampleMgr.ENABLED = true
    ∧ sampleConn.commit_on_success_block_level = some 1
    ∧ (sampleMgr.exitFull ⟨true, true⟩ false sampleConn).2.commitAttempts
        = sampleConn.commitAttempts + 1 :=
  ⟨rfl, rfl, (C1_exit_behaviour sampleMgr ⟨true, true⟩ sampleConn 1 rfl rfl).1⟩

/-- Claim C2, counterexample to the claim as stated: with ENABLED true and a
transaction already open (`in_atomic_block`), entry raises
`TransactionManagementError` even when no isolation level is requested
(`read_committed` is false, second conjunct), contradicting the claim that
such an entry does not fail. -/
theorem C2_counterexample :
    sampleMgr.enter { freshConn with in_atomic_block := true }
        = .error PyExc.transactionManagementError
    ∧ (CommitOnSuccessManager.mk true (some DEFAULT_DB_ALIAS) false).enter
        { freshConn with in_atomic_block := true }
        = .error PyExc.transactionManagementError := by
  constructor <;> rfl

/-- Claim C2 (amended): entering `CommitOnSuccessManager` with ENABLED true
raises `TransactionManagementError` precisely when a transaction is already
open on the connection (`in_atomic_block`), regardless of whether a new
isolation level is requested; and no other exception can be raised by
entry. -/
theorem C2_enter_raises_iff (m : CommitOnSuccessManager) (conn : Connection)
    (hE : m.ENABLED = true) :
    (m.enter conn = .error PyExc.transactionManagementError ↔ conn.in_atomic_block = true)
    ∧ (∀ e, m.enter conn = .error e → e = PyExc.transactionManagementError) := by
  unfold CommitOnSuccessManager.enter
  rw [hE]
  cases h : conn.in_atomic_block <;> simp
  split
  · split <;> simp
  · simp

theorem C2_enter_raises_iff_witness :
    (sampleMgr.ENABLED = true)
    ∧ ((sampleMgr.enter freshConn = .error PyExc.transactionManagementError
          ↔ freshConn.in_atomic_block = true)
        ∧ (∀ e, sampleMgr.enter freshConn = .error e
            → e = PyExc.transactionManagementError)) :=
  ⟨rfl, C2_enter_raises_iff sampleMgr freshConn rfl⟩

/-- Claim C5: on entry with ENABLED true and no transaction already open, the
statement SET TRANSACTION ISOLATION LEVEL READ COMMITTED is executed if and
only if `read_committed` is true, the vendor is mysql, and the entry is
outermost (nesting counter 0); at an outermost entry autocommit is disabled
and the counter becomes 1; at a nested entry only the counter is
incremented. -/
theorem C5_enter_behaviour (m : CommitOnSuccessManager) (conn : Connection)
    (hE : m.ENABLED = true) (hA : conn.in_atomic_block = false) :
    ∃ c2, m.enter conn = .ok c2
    ∧ (c2.executedSql = conn.executedSql ++
        (if m.read_committed = true ∧ conn.vendor = "mysql"
            ∧ conn.commit_on_success_block_level.getD 0 = 0
         then [READ_COMMITTED_SQL] else []))
    ∧ (conn.commit_on_success_block_level.getD 0 = 0 →
        c2.autocommit = false ∧ c2.commit_on_success_block_level = some 1)
    ∧ (conn.commit_on_success_block_level.getD 0 ≠ 0 →
        c2 = { conn with commit_on_success_block_level := some (conn.commit_on_success_block_level.getD 0 + 1) }) := by
  unfold CommitOnSuccessManager.enter
  rw [hE, hA]
  by_cases h0 : conn.commit_on_success_block_level.getD 0 = 0 <;>
    by_cases hrc : m.read_committed = true <;>
      by_cases hv : conn.vendor = "mysql" <;>
        cases hac : conn.autocommits_when_autocommit_is_off <;>
          simp [h0, hrc, hv, hac]

theorem C5_enter_behaviour_witness :
    sampleMgr.ENABLED = true ∧ freshConn.in_atomic_block = false
    ∧ ∃ c2, sampleMgr.enter freshConn = .ok c2 :=
  ⟨rfl, rfl, (C5_enter_behaviour sampleMgr freshConn rfl rfl).elim (fun c2 h => ⟨c2, h.1⟩)⟩

/-- Claim C6: every exit with ENABLED true decrements the connection's
nesting counter exactly once (for every driver behaviour and whether or not
the body raised), autocommit is restored to enabled exactly when the counter
reaches 0, and a balanced sequence of enters and exits leaves the counter at
its initial value. -/
theorem C6_exit_decrement_and_balance :
    (∀ (m : CommitOnSuccessManager) (env : DbEnv) (e : Bool) (conn : Connection) (v : Int),
      m.ENABLED = true → conn.commit_on_success_block_level = some v →
      (m.exitFull env e conn).2.commit_on_success_block_level = some (v - 1))
    ∧ (∀ (m : CommitOnSuccessManager) (env : DbEnv) (e : Bool) (conn : Connection) (v : Int),
      m.ENABLED = true → conn.commit_on_success_block_level = some v →
      (m.exitFull env e conn).2.autocommit = (if v - 1 = 0 then true else conn.autocommit))
    ∧ (∀ (m : CommitOnSuccessManager) (l : List TxOp) (conn : Connection) (v : Int),
      m.ENABLED = true → Balanced l → conn.in_atomic_block = false →
      conn.commit_on_success_block_level = some v →
      (runOps m l conn).commit_on_success_block_level = some v) := by
  refine ⟨?_, ?_, ?_⟩
  · intro m env e conn v hE hl
    exact exitState_level m env e conn v hE hl
  · intro m env e conn v hE hl
    exact exitState_autocommit m env e conn v hE hl
  · intro m l conn v hE hb hA hl
    exact (runOps_balanced_level m hb conn v hE hA hl).1

theorem C6_witness :
    sampleMgr.ENABLED = true
    ∧ sampleConn.commit_on_success_block_level = some 1
    ∧ Balanced [TxOp.enterOp, TxOp.exitOp false ⟨false, false⟩]
    ∧ (sampleMgr.exitFull ⟨false, false⟩ false sampleConn).2.commit_on_success_block_level
        = some (1 - 1)
    ∧ (runOps sampleMgr [TxOp.enterOp, TxOp.exitOp false ⟨false, false⟩]
        sampleConn).commit_on_success_block_level = some 1 :=
  ⟨rfl, rfl, Balanced.wrap false ⟨false, false⟩ [] Balanced.nil,
   C6_exit_decrement_and_balance.1 sampleMgr ⟨false, false⟩ false sampleConn 1 rfl rfl,
   C6_exit_decrement_and_balance.2.2 sampleMgr [TxOp.enterOp, TxOp.exitOp false ⟨false, false⟩]
     sampleConn 1 rfl (Balanced.wrap false ⟨false, false⟩ [] Balanced.nil) rfl rfl⟩

/-- Claim C7: applying `commit_on_success` directly to a callable yields a
function that behaves identically, for every argument, environment and
connection state, to calling the original function inside the corresponding
`commit_on_success` context manager, and the default database alias is used;
likewise the decorator form of any manager agrees with its context-manager
form. -/
theorem C7_decorator_equivalence {α β : Type}
    (func : α → Connection → Except PyExc β × Connection)
    (args : α) (env : DbEnv) (conn : Connection) :
    commit_on_success_on_callable func args env conn
      = pyWith (commit_on_success (some DEFAULT_DB_ALIAS) false) env (func args) conn
    ∧ (∀ (u : Option String) (rc : Bool),
        (commit_on_success u rc).callDecorator func args env conn
          = pyWith (commit_on_success u rc) env (func args) conn)
    ∧ (commit_on_success (some DEFAULT_DB_ALIAS) false).using_ = some DEFAULT_DB_ALIAS :=
  ⟨rfl, fun _ _ => rfl, rfl⟩

theorem C7_witness :
    commit_on_success_on_callable
        (fun (_ : Unit) (c : Connection) => ((Except.ok () : Except PyExc Unit), c))
        () ⟨false, false⟩ freshConn
      = pyWith (commit_on_success (some DEFAULT_DB_ALIAS) false) ⟨false, false⟩
          ((fun (_ : Unit) (c : Connection) => ((Except.ok () : Except PyExc Unit), c)) ())
          freshConn :=
  (C7_decorator_equivalence
    (fun (_ : Unit) (c : Connection) => ((Except.ok () : Except PyExc Unit), c))
    () ⟨false, false⟩ freshConn).1

/-- A successful run of the retry loop yields a draw outside `used`. -/
theorem genIntIdAux_sound (draws : Nat → Int) (used : List Int) :
    ∀ (fuel idx : Nat) (c : Int), genIntIdAux draws used fuel idx = some c →
      used.contains c = false ∧ ∃ n, c = draws n := by
  intro fuel
  induction fuel with
  | zero => intro idx c h; simp [genIntIdAux] at h
  | succ f ih =>
    intro idx c h
    simp only [genIntIdAux] at h
    by_cases hc : used.contains (draws idx)
    · rw [if_pos hc] at h
      exact ih (idx + 1) c h
    · rw [if_neg hc] at h
      cases h
      exact ⟨by simpa using hc, idx, rfl⟩

/-- When every draw is used, the retry loop never produces a value. -/
theorem genIntIdAux_none (draws : Nat → Int) (used : List Int)
    (h : ∀ n, used.contains (draws n) = true) :
    ∀ fuel idx, genIntIdAux draws used fuel idx = none := by
  intro fuel
  induction fuel with
  | zero => intro idx; rfl
  | succ f ih =>
    intro idx
    simp only [genIntIdAux]
    rw [if_pos (h idx)]
    exact ih (idx + 1)

/-- Claim C10: whenever `generate_int_id` returns (with `minimum ≤ maximum`
and every `random.randint` draw in range), its value lies in
`[minimum, maximum]` and is not in `used_ids`; and when `used_ids` covers the
entire range, the retry loop never returns, for any amount of fuel. -/
theorem C10_generate_int_id :
    (∀ (draws : Nat → Int) (fuel : Nat) (lo hi : Int)
        (used_ids : Option (List Int)) (c : Int),
      lo ≤ hi →
      (∀ n, lo ≤ draws n ∧ draws n ≤ hi) →
      generate_int_id draws fuel lo hi used_ids = some c →
      lo ≤ c ∧ c ≤ hi ∧ c ∉ used_ids.getD [])
    ∧ (∀ (draws : Nat → Int) (fuel : Nat) (lo hi : Int)
        (used_ids : Option (List Int)),
      (∀ n, lo ≤ draws n ∧ draws n ≤ hi) →
      (∀ x, lo ≤ x → x ≤ hi → x ∈ used_ids.getD []) →
      generate_int_id draws fuel lo hi used_ids = none) := by
  constructor
  · intro draws fuel lo hi used c hle hdr h
    obtain ⟨hnc, n, rfl⟩ := genIntIdAux_sound draws (used.getD []) fuel 0 c h
    exact ⟨(hdr n).1, (hdr n).2, by simpa using hnc⟩
  · intro draws fuel lo hi used hdr hcov
    apply genIntIdAux_none
    intro n
    have hmem := hcov (draws n) (hdr n).1 (hdr n).2
    simpa using hmem

theorem C10_witness :
    (0 : Int) ≤ 10
    ∧ (∀ _n : Nat, (0 : Int) ≤ 3 ∧ (3 : Int) ≤ 10)
    ∧ ((0 : Int) ≤ 3 ∧ (3 : Int) ≤ 10
        ∧ (3 : Int) ∉ (Option.getD (none : Option (List Int)) [])) :=
  ⟨by decide, fun _ => ⟨by decide, by decide⟩,
   C10_generate_int_id.1 (fun _ => 3) 1 0 10 none 3 (by decide)
     (fun _ => ⟨show (0 : Int) ≤ 3 by decide, show (3 : Int) ≤ 10 by decide⟩) rfl⟩

end UtilDb

namespace ApiParsers

/-- Claim C3: for every call that passes the view whitelist check, if the
media type has an entry in the parser's extension table, parse raises
`ParseError` exactly when the lowercased extension of the filename from the
content-disposition header is not in that entry's list of acceptable
extensions; if the media type has no entry in the table, no `ParseError` is
raised for any filename. -/
theorem C3_extension_check :
    (∀ (stream mt filename : String) (umt : Option (List String))
        (exts : List String) (e : String),
      (∀ ts, umt = some ts → mt ∈ ts) →
      lookupExt mt = some exts →
      extOf filename = some e →
      (isParseError (TypedFileUploadParser.parse stream mt umt filename) = true
        ↔ e ∉ exts))
    ∧ (∀ (stream mt filename : String) (umt : Option (List String)),
      (∀ ts, umt = some ts → mt ∈ ts) →
      lookupExt mt = none →
      isParseError (TypedFileUploadParser.parse stream mt umt filename) = false) := by
  constructor
  · intro stream mt filename umt exts e hw htab hext
    rw [parse_pass_eq stream mt filename umt hw]
    unfold parseAfterWhitelist
    rcases hrs : (rsplitDot1 filename)[1]? with _ | tl
    · unfold extOf at hext
      rw [hrs] at hext
      simp only [Option.map_none'] at hext
      exact absurd hext (by simp)
    · unfold extOf at hext
      rw [hrs] at hext
      simp only [Option.map_some'] at hext
      rw [htab]
      have he : lowerAscii ("." ++ tl) = e := Option.some.inj hext
      subst he
      by_cases hc : exts.contains (lowerAscii ("." ++ tl))
      · have hmem : lowerAscii ("." ++ tl) ∈ exts := by simpa using hc
        simp [isParseError, hmem]
      · have hmem : lowerAscii ("." ++ tl) ∉ exts := by simpa using hc
        simp [isParseError, hmem]
  · intro stream mt filename umt hw htab
    rw [parse_pass_eq stream mt filename umt hw]
    unfold parseAfterWhitelist
    rw [htab]
    rfl

theorem C3_witness :
    isParseError (TypedFileUploadParser.parse "body" "image/png" none "file.PNG") = true
      ↔ ".png" ∉ [".png"] :=
  C3_extension_check.1 "body" "image/png" "file.PNG" none [".png"] ".png"
    (fun _ h => by cases h) rfl (by decide)

/-- Claim C4: `TypedFileUploadParser.parse` raises `UnsupportedMediaType`
exactly when the view supplies an `upload_media_types` whitelist and the
declared media type is not in it; with no whitelist (attribute absent or
None) no `UnsupportedMediaType` is raised for any media type. -/
theorem C4_unsupported_iff (stream mt filename : String) (umt : Option (List String)) :
    isUnsupportedMediaType (TypedFileUploadParser.parse stream mt umt filename) = true
      ↔ ∃ ts, umt = some ts ∧ mt ∉ ts := by
  unfold TypedFileUploadParser.parse
  cases umt with
  | none => simp [parseAfterWhitelist_not_umt]
  | some ts =>
    by_cases hc : ts.contains mt
    · have hmem : mt ∈ ts := by simpa using hc
      simp [hc, parseAfterWhitelist_not_umt, hmem]
    · have hmem : mt ∉ ts := by simpa using hc
      simp [hc, isUnsupportedMediaType, hmem]

theorem C4_witness :
    isUnsupportedMediaType
        (TypedFileUploadParser.parse "body" "image/tiff"
          (some ["image/png", "image/jpeg"]) "file.tiff") = true
      ↔ ∃ ts, (some ["image/png", "image/jpeg"] : Option (List String)) = some ts
          ∧ "image/tiff" ∉ ts :=
  C4_unsupported_iff "body" "image/tiff" "file.tiff" (some ["image/png", "image/jpeg"])

/-- Claim C8: `MergePatchParser` declares no `parse` of its own, so its parse
is exactly the standard JSON parser's parse on every input; the only
difference between the two parsers is the declared media type
`application/merge-patch+json`. -/
theorem C8_merge_patch_delegates :
    (∀ (σ ρ : Type) (jsonParserParse : σ → ρ) (s : σ),
      MergePatchParser.parse jsonParserParse s = jsonParserParse s)
    ∧ MergePatchParser_media_type = "application/merge-patch+json"
    ∧ MergePatchParser_media_type ≠ JSONParser_media_type :=
  ⟨fun σ ρ f s => rfl, rfl, by decide⟩

theorem C8_witness :
    MergePatchParser.parse (fun n : Nat => n + 1) 3 = (fun n : Nat => n + 1) 3 :=
  C8_merge_patch_delegates.1 Nat Nat (fun n => n + 1) 3

/-- Claim C9, counterexample to the claim as stated: a call whose media type
has an entry in the extension table and whose filename has no `'.'` raises
`UnsupportedMediaType` — not `IndexError` — when the view's whitelist rejects
the media type, since the whitelist check runs first. -/
theorem C9_counterexample :
    TypedFileUploadParser.parse "body" "image/png" (some ["image/jpeg"]) "file"
      = .error (.unsupportedMediaType "image/png")
    ∧ lookupExt "image/png" = some [".png"]
    ∧ ('.' ∈ "file".data → False)
    ∧ TypedFileUploadParser.parse "body" "image/png" (some ["image/jpeg"]) "file"
        ≠ .error .indexError := by
  refine ⟨rfl, rfl, by decide, ?_⟩
  rw [show TypedFileUploadParser.parse "body" "image/png" (some ["image/jpeg"]) "file"
        = Except.error (DRFError.unsupportedMediaType "image/png") from rfl]
  simp

/-- Claim C9 (amended): for every call that passes the view whitelist check,
where the media type has an entry in the extension table and the filename
from the content-disposition header contains no `'.'` character, the
expression `filename.rsplit('.', 1)[1]` raises an `IndexError` (not a
`ParseError` or `UnsupportedMediaType`). -/
theorem C9_dotless_index_error (stream mt filename : String)
    (umt : Option (List String)) (exts : List String)
    (hw : ∀ ts, umt = some ts → mt ∈ ts)
    (htab : lookupExt mt = some exts)
    (hdot : '.' ∉ filename.data) :
    TypedFileUploadParser.parse stream mt umt filename = .error .indexError := by
  rw [parse_pass_eq stream mt filename umt hw]
  unfold parseAfterWhitelist
  rw [htab, rsplitDot1_no_dot filename hdot]
  rfl

theorem C9_witness :
    TypedFileUploadParser.parse "b" "image/png" none "file" = .error .indexError :=
  C9_dotless_index_error "b" "image/png" "file" none [".png"]
    (fun _ h => by cases h) rfl (by decide)

end ApiParsers
